import Mathlib

/-!
Verification development for the event-driven email notification core of the
user-management service. The definitions below are a shallow embedding of
the Python modules `app/events/event_types.py`, `app/events/kafka_utils.py`,
`app/events/kafka_test_helper.py`, `app/events/kafka_producer.py`,
`app/services/email_service.py` and `app/tasks/email_tasks.py`.
Mutable process state (the forced-unavailable flag, the in-memory capture
buffer, the payload dictionary mutated in place) is made explicit by passing
it in and returning the updated value; Python exceptions are modelled with
an explicit error component; external collaborators (the broker client, the
SMTP transport, the template renderer, the current clock) are parameters.
-/

set_option autoImplicit false

namespace UserManagement

/-- Python exception classes that can arise in the embedded code paths. -/
inductive PyErr where
  | connectionError
  | valueError
  | attributeError
  | typeError
  | smtpError
  | renderError
  deriving DecidableEq, Repr

/-- The EventType enumeration from app/events/event_types.py. -/
inductive EventType where
  | EMAIL_VERIFICATION
  | ACCOUNT_LOCKED
  | ACCOUNT_UNLOCKED
  | ROLE_UPGRADE
  | PROFESSIONAL_STATUS_UPGRADE
  deriving DecidableEq, Repr

/-- The .value attribute of each EventType member (its topic string). -/
def EventType.value : EventType → String
  | .EMAIL_VERIFICATION => "email_verification"
  | .ACCOUNT_LOCKED => "account_locked"
  | .ACCOUNT_UNLOCKED => "account_unlocked"
  | .ROLE_UPGRADE => "role_upgrade"
  | .PROFESSIONAL_STATUS_UPGRADE => "professional_status_upgrade"

/-- The EventType(topic) constructor call: returns the member whose value
matches, and raises ValueError (here: Option.none) otherwise. -/
def EventType.fromValue (s : String) : Option EventType :=
  if s = "email_verification" then some .EMAIL_VERIFICATION
  else if s = "account_locked" then some .ACCOUNT_LOCKED
  else if s = "account_unlocked" then some .ACCOUNT_UNLOCKED
  else if s = "role_upgrade" then some .ROLE_UPGRADE
  else if s = "professional_status_upgrade" then some .PROFESSIONAL_STATUS_UPGRADE
  else Option.none

namespace event_types

/-- Module-level string constant EMAIL_VERIFICATION in event_types.py.
Distinct from the enum member EventType.EMAIL_VERIFICATION: this is a
plain string. -/
def EMAIL_VERIFICATION : String := "email_verification"

/-- Module-level string constant ACCOUNT_LOCKED in event_types.py. -/
def ACCOUNT_LOCKED : String := "account_locked"

/-- Module-level string constant ACCOUNT_UNLOCKED in event_types.py. -/
def ACCOUNT_UNLOCKED : String := "account_unlocked"

/-- Module-level string constant ROLE_UPGRADE in event_types.py. -/
def ROLE_UPGRADE : String := "role_upgrade"

/-- Module-level string constant PROFESSIONAL_STATUS_UPGRADE in event_types.py. -/
def PROFESSIONAL_STATUS_UPGRADE : String := "professional_status_upgrade"

end event_types

/-- Primitive Python values appearing in event payloads. -/
inductive Val where
  | str (s : String)
  | bool (b : Bool)
  | none
  deriving DecidableEq, Repr

/-- A Python dict with string keys, as an association list in insertion
order (Python dicts preserve insertion order; keys are unique). -/
abbrev Dict := List (String × Val)

/-- Lookup d[k] as an Option (keys are unique in a Python dict, so the
first match is the only one). -/
def dictGet (d : Dict) (k : String) : Option Val :=
  match d with
  | [] => Option.none
  | kv :: rest => if kv.1 = k then some kv.2 else dictGet rest k

/-- The Python assignment d[k] = v: replaces the value of an existing key
in place, otherwise appends the new key at the end. -/
def dictSet (d : Dict) (k : String) (v : Val) : Dict :=
  match d with
  | [] => [(k, v)]
  | kv :: rest => if kv.1 = k then (k, v) :: rest else kv :: dictSet rest k v

/-- The Python call d.get(k): the value, or None when the key is absent. -/
def pyGet (d : Dict) (k : String) : Val :=
  (dictGet d k).getD .none

/-- The Python call d.get(k, dflt). -/
def pyGetD (d : Dict) (k : String) (dflt : Val) : Val :=
  (dictGet d k).getD dflt

/-! The Capture Buffer: app/events/kafka_test_helper.py keeps the
module-level list of (topic, payload) pairs; here the list is passed
explicitly. -/

/-- The in-memory event storage of kafka_test_helper.py. -/
abbrev Buffer := List (String × Dict)

/-- store_test_event appends one (topic, payload) entry. -/
def store_test_event (topic : String) (payload : Dict) (storage : Buffer) : Buffer :=
  storage ++ [(topic, payload)]

/-- get_stored_test_events returns all stored events in order. -/
def get_stored_test_events (storage : Buffer) : Buffer :=
  storage

/-- clear_stored_test_events empties the storage. -/
def clear_stored_test_events (_storage : Buffer) : Buffer :=
  []

/-- get_last_stored_event returns the most recently stored event, if any. -/
def get_last_stored_event (storage : Buffer) : Option (String × Dict) :=
  storage.getLast?

/-! The Availability Gate: the mutable cell in app/events/kafka_utils.py
plus the TEST_MODE environment variable read at call time. -/

/-- Process-wide availability state: the simulate_kafka_unavailable cell
of kafka_utils.py together with whether the environment variable TEST_MODE equals
the string True at the moment of the call. -/
structure GateState where
  simulate : Bool
  testModeEnv : Bool
  deriving DecidableEq, Repr

/-- set_kafka_unavailable from kafka_utils.py: writes the shared cell. -/
def set_kafka_unavailable (unavailable : Bool) (st : GateState) : GateState :=
  { st with simulate := unavailable }

/-- The bypass condition tested by handle_kafka_unavailable on each call:
simulate_kafka_unavailable or TEST_MODE equals True. -/
def bypassActive (st : GateState) : Bool :=
  st.simulate || st.testModeEnv

/-! The Event Sink: publish_event and its handle_kafka_unavailable
decorator in app/events/kafka_producer.py. -/

/-- A positional argument passed to publish_event. Call sites pass an
EventType member or a plain string as the first argument and a dict as
the second; None stands for an absent keyword argument. -/
inductive Arg where
  | event (e : EventType)
  | str (s : String)
  | dict (d : Dict)
  | none
  deriving DecidableEq, Repr

/-- A broker client send call: given topic, message value and the current
capture storage, it either returns the possibly extended storage or raises. -/
abbrev Producer := String → Dict → Buffer → Except PyErr Buffer

/-- MockProducer.send from kafka_producer.py: raises ConnectionError when
the unavailability flag is set, otherwise converts the topic back to an
EventType (ValueError on an unknown topic) and stores the event. -/
def MockProducer.send (st : GateState) (topic : String) (value : Dict)
    (buf : Buffer) : Except PyErr Buffer :=
  if st.simulate then .error .connectionError
  else
    match EventType.fromValue topic with
    | some _ => .ok (store_test_event topic value buf)
    | Option.none => .error .valueError

/-- Outcome of running the undecorated body of publish_event: the raised
exception if any, the returned boolean, the capture storage, and the state
of the second argument object after the call (the payload dict is mutated
in place by the timestamp assignment). -/
structure BodyResult where
  err : Option PyErr
  ret : Bool
  buf : Buffer
  arg1After : Arg
  deriving Repr

/-- The body of publish_event (before decoration). The first statements
access event_type.name, so a non-EventType first argument raises
AttributeError; a set unavailability flag raises ConnectionError; a
non-dict payload raises TypeError at the timestamp assignment; otherwise
the current UTC timestamp string now is written into the payload and the
producer send is attempted. -/
def publish_event_body (st : GateState) (producer : Producer) (arg0 arg1 : Arg)
    (now : String) (buf : Buffer) : BodyResult :=
  match arg0 with
  | .event e =>
    if st.simulate then
      { err := some .connectionError, ret := false, buf := buf, arg1After := arg1 }
    else
      match arg1 with
      | .dict d =>
        let d2 := dictSet d "timestamp" (.str now)
        match producer e.value d2 buf with
        | .ok buf2 =>
          { err := Option.none, ret := true, buf := buf2, arg1After := .dict d2 }
        | .error er =>
          { err := some er, ret := false, buf := buf, arg1After := .dict d2 }
      | _ =>
        { err := some .typeError, ret := false, buf := buf, arg1After := arg1 }
  | _ =>
    { err := some .attributeError, ret := false, buf := buf, arg1After := arg1 }

/-- Result of a call to the decorated publish_event: the returned boolean,
the capture storage afterwards, and the state of the payload argument
object afterwards. The wrapper itself never raises. -/
structure PublishResult where
  ret : Bool
  buf : Buffer
  arg1After : Arg
  deriving Repr

/-- The decorated publish_event, i.e. handle_kafka_unavailable applied to
publish_event_body, called with two positional arguments. When bypass is
active the wrapper extracts the event type (only when the first argument
is an EventType instance) and the payload (only when the second argument
is a dict); it stores the event only when both are extracted and truthy
(an empty dict is falsy in Python), and returns True in every bypass case
because store_test_event cannot raise. Otherwise it runs the body and
converts any raised exception into a True return. -/
def publish_event (st : GateState) (producer : Producer) (arg0 arg1 : Arg)
    (now : String) (buf : Buffer) : PublishResult :=
  if bypassActive st then
    let event_type : Option EventType :=
      match arg0 with
      | .event e => some e
      | _ => Option.none
    let payload : Option Dict :=
      match arg1 with
      | .dict d => some d
      | _ => Option.none
    match event_type, payload with
    | some e, some d =>
      if d = [] then
        { ret := true, buf := buf, arg1After := arg1 }
      else
        { ret := true, buf := store_test_event e.value d buf, arg1After := arg1 }
    | _, _ =>
      { ret := true, buf := buf, arg1After := arg1 }
  else
    let r := publish_event_body st producer arg0 arg1 now buf
    match r.err with
    | Option.none => { ret := r.ret, buf := r.buf, arg1After := r.arg1After }
    | some _ => { ret := true, buf := r.buf, arg1After := r.arg1After }

/-! The Notification Service: app/services/email_service.py. Each send
method builds a payload dict from the user entity, calls publish_event
WITHOUT awaiting it (the source binds the coroutine object itself to the
variable success), and branches on the truthiness of success. -/

/-- The user entity fields consumed by the notification subsystem. The id
field holds the string form str(user.id). -/
structure User where
  id : String
  email : String
  first_name : String
  verification_token : String
  is_professional : Bool
  deriving DecidableEq, Repr

/-- The user argument actually passed to a send method at run time: a
well-formed entity, or an object (such as None) on which every attribute
access raises AttributeError. -/
inductive UserArg where
  | valid (u : User)
  | badUser
  deriving DecidableEq, Repr

/-- The value produced by calling an async function without awaiting it:
a coroutine object. -/
inductive Awaitable where
  | coroutine
  deriving DecidableEq, Repr

/-- Python truthiness of a coroutine object: objects without special
boolean or length methods are always truthy. -/
def Awaitable.truthy : Awaitable → Bool
  | .coroutine => true

/-- The user_data dict built by send_verification_email. -/
def verification_user_data (u : User) : Dict :=
  [("id", .str u.id), ("email", .str u.email), ("first_name", .str u.first_name),
   ("verification_token", .str u.verification_token)]

/-- The user_data dict built by send_account_locked_notification and by
send_account_unlocked_notification. -/
def basic_user_data (u : User) : Dict :=
  [("id", .str u.id), ("email", .str u.email), ("first_name", .str u.first_name)]

/-- The user_data dict built by send_role_upgrade_notification; new_role
holds the name of the UserRole member. -/
def role_user_data (u : User) (new_role : String) : Dict :=
  basic_user_data u ++ [("new_role", .str new_role)]

/-- The user_data dict built by send_professional_status_notification. -/
def professional_user_data (u : User) : Dict :=
  basic_user_data u ++ [("is_professional", .bool u.is_professional)]

/-- One completed direct (fallback) send through the SMTP transport:
which template was rendered, to whom it was sent, and the verification
URL placed in the rendering context when the template uses one. -/
structure DirectSendCall where
  template : String
  recipient : String
  url : Option String
  deriving DecidableEq, Repr

/-- The verification URL built by _direct_send_verification_email:
server_base_url/verify-email/user.id/user.verification_token. -/
def verification_url (base : String) (u : User) : String :=
  base ++ "/verify-email/" ++ u.id ++ "/" ++ u.verification_token

/-- _direct_send_verification_email: accesses user attributes to build the
verification URL and context (AttributeError on a malformed user), renders
the email_verification template and sends it; smtp is the combined outcome
of the render and transport steps, which may raise. -/
def direct_send_verification (base : String) (user : UserArg)
    (smtp : Except PyErr Unit) : Except PyErr DirectSendCall :=
  match user with
  | .badUser => .error .attributeError
  | .valid u =>
    match smtp with
    | .ok _ =>
      .ok { template := "email_verification", recipient := u.email,
            url := some (verification_url base u) }
    | .error er => .error er

/-- _direct_send_user_email specialised to the account_locked fallback in
send_account_locked_notification: renders the account_locked template for
the given recipient and sends it; smtp may raise. -/
def direct_send_account_locked (u : User)
    (smtp : Except PyErr Unit) : Except PyErr DirectSendCall :=
  match smtp with
  | .ok _ =>
    .ok { template := "account_locked", recipient := u.email, url := Option.none }
  | .error er => .error er

/-- Observable outcome of one Notification Service send method: the
exception propagated to the caller (if any), the two positional arguments
passed to publish_event (Option.none when the call was never reached),
how many times a direct-send fallback method was entered, and the
completed fallback transport sends. -/
structure NotifyResult where
  err : Option PyErr
  publishArgs : Option (Arg × Arg)
  fallbackEntered : Nat
  fallbackCalls : List DirectSendCall
  deriving Repr

/-- EmailService.send_verification_email. The try block builds user_data
(AttributeError on a malformed user), binds the un-awaited coroutine to
success and branches on its truthiness; the publish-failed branch and the
except handler both call _direct_send_verification_email, and an exception
raised by the handler fallback propagates to the caller. -/
def send_verification_email (base : String) (user : UserArg)
    (smtp : Except PyErr Unit) : NotifyResult :=
  match user with
  | .badUser =>
    match direct_send_verification base .badUser smtp with
    | .ok c =>
      { err := Option.none, publishArgs := Option.none,
        fallbackEntered := 1, fallbackCalls := [c] }
    | .error er =>
      { err := some er, publishArgs := Option.none,
        fallbackEntered := 1, fallbackCalls := [] }
  | .valid u =>
    let args : Arg × Arg :=
      (.str event_types.EMAIL_VERIFICATION, .dict (verification_user_data u))
    let success := Awaitable.coroutine
    if success.truthy then
      { err := Option.none, publishArgs := some args,
        fallbackEntered := 0, fallbackCalls := [] }
    else
      match direct_send_verification base (.valid u) smtp with
      | .ok c =>
        { err := Option.none, publishArgs := some args,
          fallbackEntered := 1, fallbackCalls := [c] }
      | .error _ =>
        match direct_send_verification base (.valid u) smtp with
        | .ok c =>
          { err := Option.none, publishArgs := some args,
            fallbackEntered := 2, fallbackCalls := [c] }
        | .error er =>
          { err := some er, publishArgs := some args,
            fallbackEntered := 2, fallbackCalls := [] }

/-- EmailService.send_account_locked_notification. The fallback direct
send sits inside the try block, so its exceptions are caught by the except
handler, which only logs; nothing propagates. -/
def send_account_locked_notification (user : UserArg)
    (smtp : Except PyErr Unit) : NotifyResult :=
  match user with
  | .badUser =>
    { err := Option.none, publishArgs := Option.none,
      fallbackEntered := 0, fallbackCalls := [] }
  | .valid u =>
    let args : Arg × Arg :=
      (.str event_types.ACCOUNT_LOCKED, .dict (basic_user_data u))
    let success := Awaitable.coroutine
    if success.truthy then
      { err := Option.none, publishArgs := some args,
        fallbackEntered := 0, fallbackCalls := [] }
    else
      match direct_send_account_locked u smtp with
      | .ok c =>
        { err := Option.none, publishArgs := some args,
          fallbackEntered := 1, fallbackCalls := [c] }
      | .error _ =>
        { err := Option.none, publishArgs := some args,
          fallbackEntered := 1, fallbackCalls := [] }

/-- EmailService.send_account_unlocked_notification: no fallback at all;
the except handler only logs. -/
def send_account_unlocked_notification (user : UserArg) : NotifyResult :=
  match user with
  | .badUser =>
    { err := Option.none, publishArgs := Option.none,
      fallbackEntered := 0, fallbackCalls := [] }
  | .valid u =>
    let args : Arg × Arg :=
      (.str event_types.ACCOUNT_UNLOCKED, .dict (basic_user_data u))
    let success := Awaitable.coroutine
    if success.truthy then
      { err := Option.none, publishArgs := some args,
        fallbackEntered := 0, fallbackCalls := [] }
    else
      { err := Option.none, publishArgs := some args,
        fallbackEntered := 0, fallbackCalls := [] }

/-- EmailService.send_role_upgrade_notification: no fallback; the except
handler only logs. new_role is the name of the UserRole member. -/
def send_role_upgrade_notification (user : UserArg) (new_role : String) : NotifyResult :=
  match user with
  | .badUser =>
    { err := Option.none, publishArgs := Option.none,
      fallbackEntered := 0, fallbackCalls := [] }
  | .valid u =>
    let args : Arg × Arg :=
      (.str event_types.ROLE_UPGRADE, .dict (role_user_data u new_role))
    let success := Awaitable.coroutine
    if success.truthy then
      { err := Option.none, publishArgs := some args,
        fallbackEntered := 0, fallbackCalls := [] }
    else
      { err := Option.none, publishArgs := some args,
        fallbackEntered := 0, fallbackCalls := [] }

/-- EmailService.send_professional_status_notification: no fallback; the
except handler only logs. -/
def send_professional_status_notification (user : UserArg) : NotifyResult :=
  match user with
  | .badUser =>
    { err := Option.none, publishArgs := Option.none,
      fallbackEntered := 0, fallbackCalls := [] }
  | .valid u =>
    let args : Arg × Arg :=
      (.str event_types.PROFESSIONAL_STATUS_UPGRADE,
       .dict (professional_user_data u))
    let success := Awaitable.coroutine
    if success.truthy then
      { err := Option.none, publishArgs := some args,
        fallbackEntered := 0, fallbackCalls := [] }
    else
      { err := Option.none, publishArgs := some args,
        fallbackEntered := 0, fallbackCalls := [] }

/-! The role-upgrade Notification Executor: send_role_upgrade_email in
app/tasks/email_tasks.py. Only its rendering-context derivation is needed
here. The lookup keys are the name attributes of the UserRole members of
app/models/user_model.py, i.e. the identifiers AUTHENTICATED, MANAGER and
ADMIN themselves. -/

/-- The role_description lookup of send_role_upgrade_email: the dict of
fixed descriptions indexed by role name, read with .get and the generic
default. The argument is the value user_data.get new_role produced, which
may be None or a non-string value, neither of which matches a key. -/
def role_description_lookup (new_role : Val) : String :=
  if new_role = .str "AUTHENTICATED" then "regular authenticated user"
  else if new_role = .str "MANAGER" then "manager with additional privileges"
  else if new_role = .str "ADMIN" then "administrator with full system access"
  else "user with updated permissions"

/-- The rendering context built by send_role_upgrade_email from the event
payload user_data. -/
def send_role_upgrade_context (user_data : Dict) : Dict :=
  let new_role := pyGet user_data "new_role"
  let role_description := role_description_lookup new_role
  [("name", pyGetD user_data "first_name" (.str "User")),
   ("email", pyGet user_data "email"),
   ("new_role", new_role),
   ("role_description", .str role_description)]

/-- A broker client whose send always raises ConnectionError, standing
for an unreachable broker (publish_event accepts any producer object
through its producer parameter). -/
def failingProducer : Producer :=
  fun _ _ _ => .error .connectionError

/-- The user of the end-to-end fallback scenario: id u1, verification
token tok. -/
def scenario_user : User :=
  { id := "u1", email := "a@b.com", first_name := "A",
    verification_token := "tok", is_professional := false }

/-! Helper lemmas shared by the claim theorems. -/

/-- Writing a key and reading it back yields the written value: the
timestamp assignment always determines the timestamp field. -/
theorem dictGet_dictSet (d : Dict) (k : String) (v : Val) :
    dictGet (dictSet d k v) k = some v := by
  induction d with
  | nil => simp [dictGet, dictSet]
  | cons kv rest ih =>
    by_cases h : kv.1 = k
    · simp [dictGet, dictSet, h]
    · simp [dictGet, dictSet, h, ih]

/-- Converting a member to its topic string and back recovers the member. -/
theorem fromValue_value (e : EventType) :
    EventType.fromValue e.value = some e := by
  cases e <;> rfl

/-- The last element of a buffer after an append is the appended entry. -/
theorem getLast_store (buf : Buffer) (t : String) (p : Dict) :
    get_last_stored_event (store_test_event t p buf) = some (t, p) := by
  simp [get_last_stored_event, store_test_event]

/-! Claim theorems. -/

/-- C1 (counterexample): the claim quantifies over every payload, but for
the empty payload dict (falsy in Python) the bypass path skips the capture
step entirely: with the forced-unavailable flag set, publishing
EMAIL_VERIFICATION with the empty dict returns true yet leaves the
Capture Buffer empty, so last() does not return the published pair. -/
theorem C1_empty_payload_not_captured :
    (publish_event { simulate := true, testModeEnv := false }
        (MockProducer.send { simulate := true, testModeEnv := false })
        (.event .EMAIL_VERIFICATION) (.dict []) "t" []).ret = true ∧
    (publish_event { simulate := true, testModeEnv := false }
        (MockProducer.send { simulate := true, testModeEnv := false })
        (.event .EMAIL_VERIFICATION) (.dict []) "t" []).buf = [] ∧
    get_last_stored_event
      (publish_event { simulate := true, testModeEnv := false }
        (MockProducer.send { simulate := true, testModeEnv := false })
        (.event .EMAIL_VERIFICATION) (.dict []) "t" []).buf
      ≠ some ("email_verification", []) := by
  refine ⟨rfl, rfl, ?_⟩
  simp [publish_event, bypassActive, get_last_stored_event]

/-- C1 (amended): for every event kind and every non-empty payload dict,
when bypass is active publish appends the (kind, payload) pair to the
Capture Buffer, returns true, last() afterwards yields exactly that entry,
and no broker call is attempted (the result does not depend on the
producer). An empty payload dict is falsy in Python, so its capture step
is skipped while the call still returns true. -/
theorem C1_bypass_captures (st : GateState) (h : bypassActive st = true)
    (e : EventType) (d : Dict) (hd : d ≠ []) (P Q : Producer)
    (now : String) (buf : Buffer) :
    publish_event st P (.event e) (.dict d) now buf =
      { ret := true, buf := store_test_event e.value d buf,
        arg1After := .dict d } ∧
    get_last_stored_event
        (publish_event st P (.event e) (.dict d) now buf).buf
      = some (e.value, d) ∧
    publish_event st P (.event e) (.dict d) now buf =
      publish_event st Q (.event e) (.dict d) now buf := by
  refine ⟨?_, ?_, ?_⟩ <;>
    simp [publish_event, h, hd, getLast_store]

/-- C1 (witness): the amended theorem applied to a concrete bypass-active
state, kind and non-empty payload. -/
theorem C1_bypass_captures_witness :
    publish_event { simulate := true, testModeEnv := false }
        (MockProducer.send { simulate := true, testModeEnv := false })
        (.event .ACCOUNT_LOCKED) (.dict [("email", .str "x")]) "t" [] =
      { ret := true,
        buf := store_test_event EventType.ACCOUNT_LOCKED.value
                 [("email", .str "x")] [],
        arg1After := .dict [("email", .str "x")] } ∧
    get_last_stored_event
        (publish_event { simulate := true, testModeEnv := false }
          (MockProducer.send { simulate := true, testModeEnv := false })
          (.event .ACCOUNT_LOCKED) (.dict [("email", .str "x")]) "t" []).buf
      = some (EventType.ACCOUNT_LOCKED.value, [("email", .str "x")]) ∧
    publish_event { simulate := true, testModeEnv := false }
        (MockProducer.send { simulate := true, testModeEnv := false })
        (.event .ACCOUNT_LOCKED) (.dict [("email", .str "x")]) "t" [] =
      publish_event { simulate := true, testModeEnv := false }
        failingProducer
        (.event .ACCOUNT_LOCKED) (.dict [("email", .str "x")]) "t" [] :=
  C1_bypass_captures { simulate := true, testModeEnv := false } rfl
    .ACCOUNT_LOCKED [("email", .str "x")] (by simp)
    (MockProducer.send { simulate := true, testModeEnv := false })
    failingProducer "t" []

/-- C2: when bypass is not active and the broker send raises any error,
publish_event does not propagate the exception (its result type already
has no error component, because the decorator catches every exception)
and the call returns True, a soft success. -/
theorem C2_broker_error_soft_success (st : GateState)
    (hs : st.simulate = false) (ht : st.testModeEnv = false)
    (P : Producer) (e : EventType) (d : Dict) (now : String) (buf : Buffer)
    (er : PyErr)
    (hp : P e.value (dictSet d "timestamp" (.str now)) buf = .error er) :
    (publish_event st P (.event e) (.dict d) now buf).ret = true := by
  simp [publish_event, bypassActive, hs, ht, publish_event_body, hp]

/-- C2 (witness): a producer that always raises ConnectionError still
yields a True return from publish_event when bypass is inactive. -/
theorem C2_broker_error_soft_success_witness :
    (publish_event { simulate := false, testModeEnv := false }
        failingProducer (.event .EMAIL_VERIFICATION)
        (.dict [("email", .str "x")]) "t" []).ret = true :=
  C2_broker_error_soft_success { simulate := false, testModeEnv := false }
    rfl rfl failingProducer .EMAIL_VERIFICATION [("email", .str "x")] "t" []
    .connectionError rfl

/-- C4: when bypass is not active and the broker accepts the message,
publish returns true and the payload object afterwards carries the
timestamp field set to the clock value the Sink sampled at publish time
(the string datetime.utcnow().isoformat() produces), overwriting any
caller-supplied value. -/
theorem C4_broker_success_timestamp (st : GateState)
    (hs : st.simulate = false) (ht : st.testModeEnv = false)
    (P : Producer) (e : EventType) (d : Dict) (now : String)
    (buf buf2 : Buffer)
    (hp : P e.value (dictSet d "timestamp" (.str now)) buf = .ok buf2) :
    (publish_event st P (.event e) (.dict d) now buf).ret = true ∧
    (publish_event st P (.event e) (.dict d) now buf).arg1After
      = .dict (dictSet d "timestamp" (.str now)) ∧
    dictGet (dictSet d "timestamp" (.str now)) "timestamp"
      = some (.str now) := by
  refine ⟨?_, ?_, dictGet_dictSet d "timestamp" (.str now)⟩ <;>
    simp [publish_event, bypassActive, hs, ht, publish_event_body, hp]

/-- C4 (witness): the theorem applied to the MockProducer with the gate
fully off and a concrete payload. -/
theorem C4_broker_success_timestamp_witness :
    (publish_event { simulate := false, testModeEnv := false }
        (MockProducer.send { simulate := false, testModeEnv := false })
        (.event .EMAIL_VERIFICATION) (.dict [("id", .str "1")])
        "2026-01-01T00:00:00" []).ret = true ∧
    (publish_event { simulate := false, testModeEnv := false }
        (MockProducer.send { simulate := false, testModeEnv := false })
        (.event .EMAIL_VERIFICATION) (.dict [("id", .str "1")])
        "2026-01-01T00:00:00" []).arg1After
      = .dict (dictSet [("id", .str "1")] "timestamp"
          (.str "2026-01-01T00:00:00")) ∧
    dictGet (dictSet [("id", .str "1")] "timestamp"
        (.str "2026-01-01T00:00:00")) "timestamp"
      = some (.str "2026-01-01T00:00:00") :=
  C4_broker_success_timestamp { simulate := false, testModeEnv := false }
    rfl rfl (MockProducer.send { simulate := false, testModeEnv := false })
    .EMAIL_VERIFICATION [("id", .str "1")] "2026-01-01T00:00:00" []
    (store_test_event "email_verification"
      (dictSet [("id", .str "1")] "timestamp" (.str "2026-01-01T00:00:00")) [])
    (by simp [MockProducer.send, EventType.fromValue, EventType.value])

/-- C6: in bypass mode the captured entry is the caller's (kind, payload)
pair unchanged: the buffer gains exactly (kind.value, payload) when the
payload is non-empty (and nothing otherwise), and the payload object is
left untouched, so no timestamp field is added on the capture path. -/
theorem C6_capture_payload_unchanged (st : GateState)
    (h : bypassActive st = true) (P : Producer) (e : EventType) (d : Dict)
    (now : String) (buf : Buffer) :
    (publish_event st P (.event e) (.dict d) now buf).buf
      = buf ++ (if d = [] then [] else [(e.value, d)]) ∧
    (publish_event st P (.event e) (.dict d) now buf).arg1After
      = .dict d := by
  by_cases hd : d = [] <;>
    simp [publish_event, h, hd, store_test_event]

/-- C6 (witness): the theorem applied in test mode to a payload without a
timestamp key; the captured payload is the caller's dict itself. -/
theorem C6_capture_payload_unchanged_witness :
    (publish_event { simulate := false, testModeEnv := true }
        failingProducer (.event .ROLE_UPGRADE)
        (.dict [("id", .str "7")]) "t" []).buf
      = [] ++ (if ([("id", Val.str "7")] : Dict) = []
               then [] else [("role_upgrade", [("id", Val.str "7")])]) ∧
    (publish_event { simulate := false, testModeEnv := true }
        failingProducer (.event .ROLE_UPGRADE)
        (.dict [("id", .str "7")]) "t" []).arg1After
      = .dict [("id", .str "7")] :=
  C6_capture_payload_unchanged { simulate := false, testModeEnv := true }
    rfl failingProducer .ROLE_UPGRADE [("id", .str "7")] "t" []

/-- C7: setting the unavailable flag to true and then back to false leaves
exactly the state that setting false alone produces; the bypass decision
is recomputed from the flag and the environment on every call (publish on
the toggled state equals publish on a state that was never forced), and
when the environment does not declare test mode the subsequent calls take
the normal broker path, timestamping and sending the payload. -/
theorem C7_toggle_restores (st : GateState) :
    set_kafka_unavailable false (set_kafka_unavailable true st)
      = set_kafka_unavailable false st ∧
    bypassActive (set_kafka_unavailable false st) = st.testModeEnv ∧
    (∀ (P : Producer) (a0 a1 : Arg) (now : String) (buf : Buffer),
      publish_event (set_kafka_unavailable false (set_kafka_unavailable true st))
          P a0 a1 now buf
        = publish_event { simulate := false, testModeEnv := st.testModeEnv }
            P a0 a1 now buf) ∧
    (st.testModeEnv = false →
      ∀ (e : EventType) (d : Dict) (now : String) (buf : Buffer),
        publish_event
            (set_kafka_unavailable false (set_kafka_unavailable true st))
            (MockProducer.send
              (set_kafka_unavailable false (set_kafka_unavailable true st)))
            (.event e) (.dict d) now buf
          = { ret := true,
              buf := store_test_event e.value
                       (dictSet d "timestamp" (.str now)) buf,
              arg1After := .dict (dictSet d "timestamp" (.str now)) }) := by
  refine ⟨rfl, by simp [set_kafka_unavailable, bypassActive], fun P a0 a1 now buf => rfl, ?_⟩
  intro ht e d now buf
  simp [publish_event, bypassActive, set_kafka_unavailable, ht,
    publish_event_body, MockProducer.send, fromValue_value]

/-- C7 (witness): the broker-path conclusion of the toggle theorem at a
concrete state, kind and payload. -/
theorem C7_toggle_restores_witness :
    publish_event
        (set_kafka_unavailable false
          (set_kafka_unavailable true { simulate := false, testModeEnv := false }))
        (MockProducer.send
          (set_kafka_unavailable false
            (set_kafka_unavailable true { simulate := false, testModeEnv := false })))
        (.event .EMAIL_VERIFICATION) (.dict [("id", .str "1")]) "t" []
      = { ret := true,
          buf := store_test_event EventType.EMAIL_VERIFICATION.value
                   (dictSet [("id", .str "1")] "timestamp" (.str "t")) [],
          arg1After := .dict (dictSet [("id", .str "1")] "timestamp" (.str "t")) } :=
  (C7_toggle_restores { simulate := false, testModeEnv := false }).2.2.2
    rfl .EMAIL_VERIFICATION [("id", .str "1")] "t" []

/-- C8: the role-upgrade executor maps MANAGER, AUTHENTICATED and ADMIN
to their fixed descriptions and every other role string to the generic
phrase, and the rendering context it builds carries exactly that
description under the role_description key. -/
theorem C8_role_descriptions :
    role_description_lookup (.str "MANAGER")
      = "manager with additional privileges" ∧
    role_description_lookup (.str "AUTHENTICATED")
      = "regular authenticated user" ∧
    role_description_lookup (.str "ADMIN")
      = "administrator with full system access" ∧
    (∀ s : String, s ≠ "AUTHENTICATED" → s ≠ "MANAGER" → s ≠ "ADMIN" →
      role_description_lookup (.str s) = "user with updated permissions") ∧
    (∀ user_data : Dict,
      dictGet (send_role_upgrade_context user_data) "role_description"
        = some (.str (role_description_lookup (pyGet user_data "new_role")))) := by
  refine ⟨rfl, rfl, rfl, ?_, ?_⟩
  · intro s h1 h2 h3
    simp [role_description_lookup, h1, h2, h3]
  · intro user_data
    simp [send_role_upgrade_context, dictGet]

/-- C8 (witness): the generic-fallback clause of the role-description
theorem applied to the unrecognized role string GUEST, plus the context
clause at a concrete payload. -/
theorem C8_role_descriptions_witness :
    role_description_lookup (.str "GUEST") = "user with updated permissions" ∧
    dictGet (send_role_upgrade_context [("new_role", .str "MANAGER")])
        "role_description"
      = some (.str (role_description_lookup
          (pyGet [("new_role", .str "MANAGER")] "new_role"))) :=
  ⟨C8_role_descriptions.2.2.2.1 "GUEST" (by decide) (by decide) (by decide),
   C8_role_descriptions.2.2.2.2 [("new_role", .str "MANAGER")]⟩

/-- C9: every EmailService send method binds the un-awaited coroutine that
calling the async publish_event produces to the variable success; a
coroutine object is truthy, so the success branch is always taken: no
fallback is entered, no fallback send completes and no error surfaces, for
every well-formed input that reaches the branch. -/
theorem C9_publish_not_awaited (base : String) (u : User)
    (smtp smtp2 : Except PyErr Unit) (new_role : String) :
    Awaitable.truthy .coroutine = true ∧
    (send_verification_email base (.valid u) smtp).fallbackEntered = 0 ∧
    (send_verification_email base (.valid u) smtp).fallbackCalls = [] ∧
    (send_verification_email base (.valid u) smtp).err = Option.none ∧
    (send_account_locked_notification (.valid u) smtp2).fallbackEntered = 0 ∧
    (send_account_locked_notification (.valid u) smtp2).fallbackCalls = [] ∧
    (send_account_unlocked_notification (.valid u)).err = Option.none ∧
    (send_role_upgrade_notification (.valid u) new_role).err = Option.none ∧
    (send_professional_status_notification (.valid u)).err = Option.none :=
  ⟨rfl, rfl, rfl, rfl, rfl, rfl, rfl, rfl, rfl⟩

/-- C10: each EmailService send method passes the module-level string
constant from event_types.py, not an EventType member, as the first
publish_event argument; and for any bypass-active state, a publish call
whose first argument is a plain string fails the isinstance extraction,
appends nothing to the Capture Buffer, leaves the payload untouched and
still returns true. -/
theorem C10_string_kind_no_capture (base : String) (u : User)
    (smtp smtp2 : Except PyErr Unit) (new_role : String)
    (st : GateState) (h : bypassActive st = true) (P : Producer)
    (s : String) (d : Dict) (now : String) (buf : Buffer) :
    ((send_verification_email base (.valid u) smtp).publishArgs.map Prod.fst)
      = some (.str "email_verification") ∧
    ((send_account_locked_notification (.valid u) smtp2).publishArgs.map Prod.fst)
      = some (.str "account_locked") ∧
    ((send_account_unlocked_notification (.valid u)).publishArgs.map Prod.fst)
      = some (.str "account_unlocked") ∧
    ((send_role_upgrade_notification (.valid u) new_role).publishArgs.map Prod.fst)
      = some (.str "role_upgrade") ∧
    ((send_professional_status_notification (.valid u)).publishArgs.map Prod.fst)
      = some (.str "professional_status_upgrade") ∧
    publish_event st P (.str s) (.dict d) now buf
      = { ret := true, buf := buf, arg1After := .dict d } := by
  refine ⟨rfl, rfl, rfl, rfl, rfl, ?_⟩
  simp [publish_event, h]

/-- C10 (witness): the theorem applied to a concrete user and a concrete
bypass-active state with the string kind the verification sender uses. -/
theorem C10_string_kind_no_capture_witness :
    ((send_verification_email "http://h" (.valid scenario_user)
        (.ok ())).publishArgs.map Prod.fst)
      = some (.str "email_verification") ∧
    ((send_account_locked_notification (.valid scenario_user)
        (.ok ())).publishArgs.map Prod.fst)
      = some (.str "account_locked") ∧
    ((send_account_unlocked_notification
        (.valid scenario_user)).publishArgs.map Prod.fst)
      = some (.str "account_unlocked") ∧
    ((send_role_upgrade_notification (.valid scenario_user)
        "MANAGER").publishArgs.map Prod.fst)
      = some (.str "role_upgrade") ∧
    ((send_professional_status_notification
        (.valid scenario_user)).publishArgs.map Prod.fst)
      = some (.str "professional_status_upgrade") ∧
    publish_event { simulate := true, testModeEnv := false } failingProducer
        (.str "email_verification") (.dict [("id", .str "u1")]) "t" []
      = { ret := true, buf := [], arg1After := .dict [("id", .str "u1")] } :=
  C10_string_kind_no_capture "http://h" scenario_user (.ok ()) (.ok ())
    "MANAGER" { simulate := true, testModeEnv := false } rfl failingProducer
    "email_verification" [("id", .str "u1")] "t" []

/-- C3 (code divergence): for the scenario user with id u1 and token tok,
send_verification_email never enters the direct-send fallback, whatever
the transport would do, because the un-awaited publish coroutine is bound
to success and is truthy, so the publish-returned-false branch is dead.
The fallback machinery itself is present and, were it invoked, would
render the email_verification template with the verification URL
containing u1 and tok, as the repository test of the fallback expects. -/
theorem C3_fallback_never_runs :
    (∀ smtp : Except PyErr Unit,
      (send_verification_email "http://localhost" (.valid scenario_user)
          smtp).fallbackEntered = 0 ∧
      (send_verification_email "http://localhost" (.valid scenario_user)
          smtp).fallbackCalls = []) ∧
    verification_url "http://localhost" scenario_user
      = "http://localhost/verify-email/u1/tok" ∧
    direct_send_verification "http://localhost" (.valid scenario_user) (.ok ())
      = .ok { template := "email_verification", recipient := "a@b.com",
              url := some "http://localhost/verify-email/u1/tok" } :=
  ⟨fun _ => ⟨rfl, rfl⟩, rfl, rfl⟩

/-- C5 (counterexample): passing a malformed user (any object whose
attribute accesses raise, such as None) to send_verification_email raises
AttributeError while building the payload; the except handler catches it
but then invokes the direct-send fallback on the same malformed user,
which raises again, and that exception propagates to the caller, so the
originating business action does not complete. -/
theorem C5_verification_exception_propagates :
    (send_verification_email "http://localhost" .badUser (.ok ())).err
      = some .attributeError ∧
    (send_verification_email "http://localhost" .badUser (.ok ())).err
      ≠ Option.none :=
  ⟨rfl, by simp [send_verification_email, direct_send_verification]⟩

/-- C5 (amended): exceptions raised while building or publishing are
caught for all five send operations; for account-locked,
account-unlocked, role-upgrade and professional-status sends no exception
ever propagates to the caller, and the verification send propagates none
whenever the user entity is well-formed — only the direct-send fallback
invoked from the verification except handler can raise out of the
service. -/
theorem C5_no_propagation_amended (user : UserArg)
    (smtp : Except PyErr Unit) (new_role base : String) (u : User)
    (smtp2 : Except PyErr Unit) :
    (send_account_locked_notification user smtp).err = Option.none ∧
    (send_account_unlocked_notification user).err = Option.none ∧
    (send_role_upgrade_notification user new_role).err = Option.none ∧
    (send_professional_status_notification user).err = Option.none ∧
    (send_verification_email base (.valid u) smtp2).err = Option.none := by
  cases user <;> exact ⟨rfl, rfl, rfl, rfl, rfl⟩

end UserManagement
